import Mathlib

/-!
Verification of the `encoding_tools` utilities (`io.py` and
`visualizations.py`) of the DataSAI_summer_school repository against their
natural-language specification.

Paths are modelled as lists of components (the result of splitting an OS
path at separators), the file system as the set of existing directories and
files plus the current working directory.  Python control flow that can end
in a NameError is modelled by an explicit result type.  NumPy float arrays
are modelled over the rationals, with an explicit value type for the IEEE
non-finite results (NaN and the infinities) where division can produce them.
-/

/-- A file-system path, as its list of components. -/
abbrev FPath := List String

/-- The ambient file-system state seen by `download_neural_data`: the current
working directory, the set of existing directories and the set of existing
files (each as a list, most recent first). -/
structure FSState where
  cwd : FPath
  dirs : List FPath
  files : List FPath
deriving DecidableEq, Repr

/-- Outcome of running a Python function body: either a normal return value,
or a NameError naming the unbound identifier. -/
inductive PyResult (α : Type) where
  | ok (a : α)
  | nameError (var : String)
deriving DecidableEq, Repr

/-- Remote URL of the miniscope dataset (io.py line 26). -/
def miniscope_url : String :=
  "https://drive.google.com/file/d/1cLbUqh2LKLXuwqXdjyvMi4DuKMFC0DiM/view?usp=drive_link"

/-- Remote URL of the widefield dataset (io.py line 29). -/
def widefield_url : String :=
  "https://drive.google.com/file/d/1XNCPKY5bRS9QtvY1aj982CjaCkMgeOJt/view?usp=drive_link"

/-- The if/elif chain of io.py lines 25-30: for a recognized `data_type`
the pair (url, fname) is bound, otherwise both names stay unbound. -/
def resolve_dataset (data_type : String) : Option (String × String) :=
  if data_type = "miniscope" then some (miniscope_url, "miniscope_data.npy")
  else if data_type = "widefield" then some (widefield_url, "widefield_data.mat")
  else none

/-- The default destination folder of io.py lines 33-34:
`DataSAI_data_folder` joined under the parent of the current working
directory. -/
def defaultDestination (s : FSState) : FPath :=
  s.cwd.dropLast ++ ["DataSAI_data_folder"]

/-- The destination block of io.py lines 32-36: when `destination` is None
the default folder is chosen and created if absent (`os.makedirs`); an
explicit destination is used as passed, with no directory creation. -/
def resolve_destination (destination : Option FPath) (s : FSState) :
    FPath × FSState :=
  match destination with
  | some d => (d, s)
  | none =>
      let dest := defaultDestination s
      if dest ∈ s.dirs then (dest, s)
      else (dest, { s with dirs := dest :: s.dirs })

/-- Shallow embedding of `download_neural_data` (io.py lines 7-40).  The
if/elif chain binds url and fname only for the two known dataset kinds; the
destination block then runs unconditionally; `os.path.join(destination,
fname)` is the first use of `fname` and raises a NameError when it is
unbound; otherwise `gdown.download` writes the file at the joined path,
which is returned. -/
def download_neural_data (data_type : String) (destination : Option FPath)
    (s : FSState) : PyResult FPath × FSState :=
  let uf := resolve_dataset data_type
  let ds := resolve_destination destination s
  match uf with
  | none => (PyResult.nameError "fname", ds.2)
  | some (_, fname) =>
      let data_file := ds.1 ++ [fname]
      (PyResult.ok data_file, { ds.2 with files := data_file :: ds.2.files })

/-- An IEEE double value as far as this code can observe it: a finite value
(modelled exactly as a rational), NaN, or a signed infinity. -/
inductive F64 where
  | fin (q : ℚ)
  | nan
  | inf
  | ninf
deriving DecidableEq, Repr

/-- IEEE division of two finite values: a zero denominator yields NaN for a
zero numerator and a signed infinity otherwise; no exception is raised. -/
def fdiv (x y : ℚ) : F64 :=
  if y = 0 then
    (if x = 0 then F64.nan else if 0 < x then F64.inf else F64.ninf)
  else F64.fin (x / y)

/-- Multiplication of an IEEE value by a positive finite constant, used for
the scaling by 255. -/
def f64scale (x : F64) (c : ℚ) : F64 :=
  match x with
  | F64.fin q => F64.fin (q * c)
  | F64.nan => F64.nan
  | F64.inf => F64.inf
  | F64.ninf => F64.ninf

/-- Truncation of a rational toward zero, the rounding used when C casts a
double to an integer type. -/
def ftrunc (q : ℚ) : ℤ :=
  if 0 ≤ q then ⌊q⌋ else ⌈q⌉

/-- Model of `np.uint8` applied to a finite double: truncate toward zero and
wrap modulo 2^8 (no clipping). -/
def np_uint8 (q : ℚ) : ℕ :=
  (ftrunc q % 256).toNat

/-- Model of `np.uint8` on a possibly non-finite double.  The cast of a
non-finite value is platform-dependent; it is modelled as 0 here and is
never reached under the hypotheses of the theorems below. -/
def np_uint8F (x : F64) : ℕ :=
  match x with
  | F64.fin q => np_uint8 q
  | _ => 0

/-- A saturating 8-bit conversion (clip to [0, 255], then truncate), stated
only to contrast with the wrapping behavior of `np_uint8`. -/
def np_uint8_clip (q : ℚ) : ℕ :=
  if q ≤ 0 then 0 else if 255 ≤ q then 255 else (ftrunc q).toNat

/-- A neuron-footprint array of shape (H+1) x (W+1) x N: height times width
times neuron count, with a nonempty image plane as numpy max over an empty
array is an error the spec never exercises. -/
abbrev Footprints (H W N : ℕ) := Fin (H + 1) → Fin (W + 1) → Fin N → ℚ

/-- Model of `np.sum(neuron_footprints, axis=2)`: the per-pixel sum over the
neuron axis. -/
def npSumAxis2 {H W N : ℕ} (A : Footprints H W N) (i : Fin (H + 1))
    (j : Fin (W + 1)) : ℚ :=
  ∑ n, A i j n

/-- All values of the footprint of neuron `n`, flattened in row-major
order. -/
def footprintVals {H W N : ℕ} (A : Footprints H W N) (n : Fin N) :
    List ℚ :=
  (List.finRange (H + 1)).bind fun i =>
    (List.finRange (W + 1)).map fun j => A i j n

/-- Model of `np.max(neuron_footprints[:,:,n])`: the maximum over all pixel
values of footprint `n` (the fold seed is itself a pixel value, so this is
the maximum of the nonempty value list). -/
def npMax {H W N : ℕ} (A : Footprints H W N) (n : Fin N) : ℚ :=
  (footprintVals A n).foldl max (A 0 0 n)

/-- Model of `np.stack((a, b, c), axis=2)`: the three planes become the
channels of the last axis. -/
def npStack3 {α : Type} {H W : ℕ} (a b c : Fin (H + 1) → Fin (W + 1) → α)
    (i : Fin (H + 1)) (j : Fin (W + 1)) (k : Fin 3) : α :=
  if k = 0 then a i j else if k = 1 then b i j else c i j

/-- The "all cells" image of visualizations.py lines 18-19:
`np.uint8(np.stack((S, S, S), axis=2) * 255)` with S the sum over the
neuron axis. -/
def all_cells {H W N : ℕ} (A : Footprints H W N) (i : Fin (H + 1))
    (j : Fin (W + 1)) (k : Fin 3) : ℕ :=
  np_uint8 (npStack3 (npSumAxis2 A) (npSumAxis2 A) (npSumAxis2 A) i j k * 255)

/-- The elementwise division `neuron_footprints[:,:,n] / np.max(...)` of
visualizations.py lines 20-22, with IEEE semantics when the maximum is
zero. -/
def normalizedFootprint {H W N : ℕ} (A : Footprints H W N) (n : Fin N)
    (i : Fin (H + 1)) (j : Fin (W + 1)) : F64 :=
  fdiv (A i j n) (npMax A n)

/-- The "examples" image of visualizations.py lines 20-22: the three
normalized selected footprints stacked as channels, scaled by 255 and cast
to uint8. -/
def examples {H W N : ℕ} (A : Footprints H W N) (n1 n2 n3 : Fin N)
    (i : Fin (H + 1)) (j : Fin (W + 1)) (k : Fin 3) : ℕ :=
  np_uint8F (f64scale (npStack3 (normalizedFootprint A n1)
    (normalizedFootprint A n2) (normalizedFootprint A n3) i j k) 255)

/-- Model of `PIL.Image.blend(im1, im2, 0.5)` on one uint8 sample: PIL
computes `in1 + 0.5 * (in2 - in1)` in float, clips to [0, 255] and
truncates; for uint8 inputs this is the truncated average. -/
def pil_blend_half (a b : ℕ) : ℕ :=
  (a + b) / 2

/-- The composite image displayed by `overlay_neurons` (visualizations.py
line 23): the 50 percent blend of the all-cells image and the examples
image. -/
def overlay_composite {H W N : ℕ} (A : Footprints H W N) (n1 n2 n3 : Fin N)
    (i : Fin (H + 1)) (j : Fin (W + 1)) (k : Fin 3) : ℕ :=
  pil_blend_half (all_cells A i j k) (examples A n1 n2 n3 i j k)

/-- Spec-side all-cells image, following the words of the spec: three
identical channels holding the sum over the neuron axis scaled by 255. -/
def allCellsSpec {H W N : ℕ} (A : Footprints H W N) (i : Fin (H + 1))
    (j : Fin (W + 1)) (_k : Fin 3) : ℕ :=
  np_uint8 ((∑ n, A i j n) * 255)

/-- Spec-side examples image, following the words of the spec: the R, G, B
channels are the footprints of the three selected indices, each divided by
its own maximum value and scaled by 255. -/
def examplesSpec {H W N : ℕ} (A : Footprints H W N) (n1 n2 n3 : Fin N)
    (i : Fin (H + 1)) (j : Fin (W + 1)) (k : Fin 3) : ℕ :=
  if k = 0 then np_uint8 (A i j n1 / npMax A n1 * 255)
  else if k = 1 then np_uint8 (A i j n2 / npMax A n2 * 255)
  else np_uint8 (A i j n3 / npMax A n3 * 255)

/-- Spec-side alpha blend at the fixed 50 percent mixing ratio, applied
pixelwise to two images. -/
def blendSpec {H W : ℕ} (P Q : Fin (H + 1) → Fin (W + 1) → Fin 3 → ℕ)
    (i : Fin (H + 1)) (j : Fin (W + 1)) (k : Fin 3) : ℕ :=
  pil_blend_half (P i j k) (Q i j k)

/-- A matplotlib axes handle, identified by its grid position: row index and
column index within the subplot grid. -/
structure AxesHandle where
  row : ℤ
  col : ℤ
deriving DecidableEq, Repr

/-- Model of `fig.add_subplot(nrows, ncols, index)`: matplotlib rejects
non-positive grid counts and an index outside 1..nrows*ncols with a
ValueError; otherwise the 1-based index is placed in row-major order. -/
def mpl_add_subplot (nrows ncols index : ℤ) : Except String AxesHandle :=
  if nrows ≤ 0 ∨ ncols ≤ 0 then
    Except.error "ValueError: number of rows and columns must be positive"
  else if index < 1 ∨ nrows * ncols < index then
    Except.error "ValueError: num must satisfy 1 <= num <= nrows * ncols"
  else Except.ok ⟨(index - 1) / ncols, (index - 1) % ncols⟩

/-- The loop of visualizations.py lines 52-53, generic in the library call:
each iteration appends the handle returned by `adder` for the 1-based index
k+1, and an exception raised by the library aborts the loop. -/
def axesLoop (adder : ℤ → ℤ → ℤ → Except String AxesHandle) (nr nc : ℤ) :
    List ℕ → List AxesHandle → Except String (List AxesHandle)
  | [], acc => Except.ok acc
  | k :: ks, acc =>
      match adder nr nc ((k : ℤ) + 1) with
      | Except.error e => Except.error e
      | Except.ok a => axesLoop adder nr nc ks (acc ++ [a])

/-- Shallow embedding of `create_subplot_axes` (visualizations.py lines
31-55), generic in the subplot-creation call of the plotting library:
`subplot_num = n_rows * n_cols` iterations (a Python range over a
non-positive count is empty, hence `toNat`), accumulating the returned
handles in order. -/
def create_subplot_axes_with (adder : ℤ → ℤ → ℤ → Except String AxesHandle)
    (n_rows n_cols : ℤ) : Except String (List AxesHandle) :=
  axesLoop adder n_rows n_cols (List.range (n_rows * n_cols).toNat) []

/-- The concrete `create_subplot_axes`, delegating to the matplotlib
model. -/
def create_subplot_axes (n_rows n_cols : ℤ) : Except String (List AxesHandle) :=
  create_subplot_axes_with mpl_add_subplot n_rows n_cols

/-- The sequence of raw subplot-creation calls of the plotting library for a
list of 0-based loop indices, with the first raised error aborting the
sequence: the behavior `create_subplot_axes` is expected to delegate to. -/
def seqCalls (adder : ℤ → ℤ → ℤ → Except String AxesHandle) (nr nc : ℤ) :
    List ℕ → Except String (List AxesHandle)
  | [] => Except.ok []
  | k :: ks =>
      match adder nr nc ((k : ℤ) + 1) with
      | Except.error e => Except.error e
      | Except.ok a =>
          match seqCalls adder nr nc ks with
          | Except.error e => Except.error e
          | Except.ok l => Except.ok (a :: l)

/-- A concrete 1 x 1 x 2 footprint collection: neuron 0 has constant value
1, neuron 1 is entirely zero. -/
def exampleFootprints : Footprints 0 0 2 :=
  fun _ _ n => if n = 0 then 1 else 0

/-- A concrete 1 x 1 x 2 footprint collection with every value 1, so the
per-pixel sum over neurons is 2, exceeding 1. -/
def wrapFootprints : Footprints 0 0 2 :=
  fun _ _ _ => 1

lemma resolve_destination_some (d : FPath) (s : FSState) :
    resolve_destination (some d) s = (d, s) := rfl

lemma resolve_destination_none_fst (s : FSState) :
    (resolve_destination none s).1 = defaultDestination s := by
  simp only [resolve_destination]
  split <;> rfl

lemma resolve_destination_none_mem (s : FSState) :
    defaultDestination s ∈ (resolve_destination none s).2.dirs := by
  simp only [resolve_destination]
  split
  · next h => exact h
  · exact List.mem_cons_self _ _

lemma resolve_destination_none_files (s : FSState) :
    (resolve_destination none s).2.files = s.files := by
  simp only [resolve_destination]
  split <;> rfl

lemma download_recognized (url fname dt : String) (destination : Option FPath)
    (s : FSState) (h : resolve_dataset dt = some (url, fname)) :
    download_neural_data dt destination s =
      (PyResult.ok ((resolve_destination destination s).1 ++ [fname]),
       { (resolve_destination destination s).2 with
          files := ((resolve_destination destination s).1 ++ [fname])
            :: (resolve_destination destination s).2.files }) := by
  simp [download_neural_data, h]

/-- Claim C2: for every data_type other than "miniscope" and "widefield",
download_neural_data leaves url and fname unbound, so instead of returning a
path it fails with a NameError at the first subsequent use of those
variables (the path join). -/
theorem c2_unknown_data_type_name_error (dt : String) (destination : Option FPath)
    (s : FSState) (h1 : dt ≠ "miniscope") (h2 : dt ≠ "widefield") :
    (download_neural_data dt destination s).1 = PyResult.nameError "fname" := by
  simp [download_neural_data, resolve_dataset, h1, h2]

/-- Witness for C2 at the concrete data_type "twophoton". -/
theorem c2_witness :
    "twophoton" ≠ "miniscope" ∧ "twophoton" ≠ "widefield" ∧
    (download_neural_data "twophoton" none ⟨["home", "user"], [], []⟩).1
      = PyResult.nameError "fname" :=
  ⟨by decide, by decide,
    c2_unknown_data_type_name_error "twophoton" none ⟨["home", "user"], [], []⟩
      (by decide) (by decide)⟩

/-- Claim C5: for data_type "miniscope" the returned path has file name
"miniscope_data.npy", and for "widefield" it has file name
"widefield_data.mat", whatever the destination and file-system state. -/
theorem c5_returned_file_names :
    (∀ (destination : Option FPath) (s : FSState), ∃ p,
        (download_neural_data "miniscope" destination s).1 = PyResult.ok p ∧
        p.getLast? = some "miniscope_data.npy") ∧
    (∀ (destination : Option FPath) (s : FSState), ∃ p,
        (download_neural_data "widefield" destination s).1 = PyResult.ok p ∧
        p.getLast? = some "widefield_data.mat") := by
  constructor <;> intro destination s
  · exact ⟨(resolve_destination destination s).1 ++ ["miniscope_data.npy"],
      by rw [download_recognized miniscope_url "miniscope_data.npy" "miniscope"
        destination s rfl],
      List.getLast?_concat _⟩
  · exact ⟨(resolve_destination destination s).1 ++ ["widefield_data.mat"],
      by rw [download_recognized widefield_url "widefield_data.mat" "widefield"
        destination s rfl],
      List.getLast?_concat _⟩

/-- Claim C6: with destination unspecified, the directory used, which is
also the directory of the returned path, is DataSAI_data_folder under the
parent of the current working directory, and it exists in the resulting
state. -/
theorem c6_default_destination (dt : String) (s : FSState)
    (h : dt = "miniscope" ∨ dt = "widefield") :
    ∃ p, (download_neural_data dt none s).1 = PyResult.ok p ∧
      p.dropLast = s.cwd.dropLast ++ ["DataSAI_data_folder"] ∧
      p.dropLast ∈ (download_neural_data dt none s).2.dirs := by
  have hmem := resolve_destination_none_mem s
  have hfst := resolve_destination_none_fst s
  rcases h with h | h <;> subst h
  · rw [download_recognized miniscope_url "miniscope_data.npy" "miniscope" none s rfl]
    exact ⟨(resolve_destination none s).1 ++ ["miniscope_data.npy"], rfl,
      by rw [List.dropLast_concat, hfst]; rfl,
      by rw [List.dropLast_concat, hfst]; exact hmem⟩
  · rw [download_recognized widefield_url "widefield_data.mat" "widefield" none s rfl]
    exact ⟨(resolve_destination none s).1 ++ ["widefield_data.mat"], rfl,
      by rw [List.dropLast_concat, hfst]; rfl,
      by rw [List.dropLast_concat, hfst]; exact hmem⟩

/-- Witness for C6 at a concrete state and data_type. -/
theorem c6_witness :
    ("miniscope" = "miniscope" ∨ "miniscope" = "widefield") ∧
    ∃ p, (download_neural_data "miniscope" none
            ⟨["home", "user"], [], []⟩).1 = PyResult.ok p ∧
      p.dropLast = (["home", "user"] : FPath).dropLast ++ ["DataSAI_data_folder"] ∧
      p.dropLast ∈ (download_neural_data "miniscope" none
            ⟨["home", "user"], [], []⟩).2.dirs :=
  ⟨Or.inl rfl, c6_default_destination "miniscope" ⟨["home", "user"], [], []⟩
    (Or.inl rfl)⟩

/-- Counterexample to claim C1 as stated: with an explicitly passed
destination directory that does not exist, the code writes the file but the
directory is never created (the resulting state has no directories at
all). -/
theorem c1_counterexample :
    (download_neural_data "miniscope" (some ["data", "newdir"])
        ⟨["home", "user"], [], []⟩).2.dirs = [] ∧
    (download_neural_data "miniscope" (some ["data", "newdir"])
        ⟨["home", "user"], [], []⟩).2.files
      = [["data", "newdir", "miniscope_data.npy"]] := by
  constructor <;> rfl

/-- Claim C1, amended: the destination directory is created (when absent)
before the file is written only when the caller leaves the destination
unspecified; the default directory is then present in the intermediate
state in which the download runs, and the file is written under it.  An
explicitly passed destination directory is never created. -/
theorem c1_amended_dir_creation (dt : String) (d : FPath) (s : FSState)
    (h : dt = "miniscope" ∨ dt = "widefield") :
    (∃ fname,
      defaultDestination s ∈ (resolve_destination none s).2.dirs ∧
      (download_neural_data dt none s).1
        = PyResult.ok (defaultDestination s ++ [fname]) ∧
      (download_neural_data dt none s).2.files
        = (defaultDestination s ++ [fname]) :: (resolve_destination none s).2.files ∧
      (download_neural_data dt none s).2.dirs = (resolve_destination none s).2.dirs) ∧
    (download_neural_data dt (some d) s).2.dirs = s.dirs := by
  have hmem := resolve_destination_none_mem s
  have hfst := resolve_destination_none_fst s
  rcases h with h | h <;> subst h
  · rw [download_recognized miniscope_url "miniscope_data.npy" "miniscope" none s rfl,
      download_recognized miniscope_url "miniscope_data.npy" "miniscope" (some d) s rfl]
    exact ⟨⟨"miniscope_data.npy", hmem, by rw [hfst], by rw [hfst], rfl⟩, rfl⟩
  · rw [download_recognized widefield_url "widefield_data.mat" "widefield" none s rfl,
      download_recognized widefield_url "widefield_data.mat" "widefield" (some d) s rfl]
    exact ⟨⟨"widefield_data.mat", hmem, by rw [hfst], by rw [hfst], rfl⟩, rfl⟩

/-- Witness for the amended C1 at a concrete state, destination and
data_type. -/
theorem c1_witness :
    ("miniscope" = "miniscope" ∨ "miniscope" = "widefield") ∧
    ((∃ fname,
      defaultDestination ⟨["home", "user"], [], []⟩
        ∈ (resolve_destination none ⟨["home", "user"], [], []⟩).2.dirs ∧
      (download_neural_data "miniscope" none ⟨["home", "user"], [], []⟩).1
        = PyResult.ok (defaultDestination ⟨["home", "user"], [], []⟩ ++ [fname]) ∧
      (download_neural_data "miniscope" none ⟨["home", "user"], [], []⟩).2.files
        = (defaultDestination ⟨["home", "user"], [], []⟩ ++ [fname])
            :: (resolve_destination none ⟨["home", "user"], [], []⟩).2.files ∧
      (download_neural_data "miniscope" none ⟨["home", "user"], [], []⟩).2.dirs
        = (resolve_destination none ⟨["home", "user"], [], []⟩).2.dirs) ∧
    (download_neural_data "miniscope" (some ["data", "newdir"])
        ⟨["home", "user"], [], []⟩).2.dirs = (⟨["home", "user"], [], []⟩ : FSState).dirs) :=
  ⟨Or.inl rfl, c1_amended_dir_creation "miniscope" ["data", "newdir"]
    ⟨["home", "user"], [], []⟩ (Or.inl rfl)⟩

/-- Claim C10: for an unrecognized data_type with destination unspecified
and the default directory absent, the call still creates the default
directory on disk before failing with the NameError, writing no file: the
failure is not atomic. -/
theorem c10_unknown_type_creates_dir (dt : String) (s : FSState)
    (h1 : dt ≠ "miniscope") (h2 : dt ≠ "widefield")
    (h3 : defaultDestination s ∉ s.dirs) :
    (download_neural_data dt none s).1 = PyResult.nameError "fname" ∧
    (download_neural_data dt none s).2.dirs = defaultDestination s :: s.dirs ∧
    (download_neural_data dt none s).2.files = s.files := by
  have hfiles := resolve_destination_none_files s
  refine ⟨?_, ?_, ?_⟩
  · simp only [download_neural_data, resolve_dataset, if_neg h1, if_neg h2]
  · simp only [download_neural_data, resolve_dataset, if_neg h1, if_neg h2,
      resolve_destination, if_neg h3]
  · simp only [download_neural_data, resolve_dataset, if_neg h1, if_neg h2]
    exact hfiles

/-- Witness for C10 at a concrete state and data_type. -/
theorem c10_witness :
    "ephys" ≠ "miniscope" ∧ "ephys" ≠ "widefield" ∧
    defaultDestination ⟨["home", "user"], [], []⟩
      ∉ (⟨["home", "user"], [], []⟩ : FSState).dirs ∧
    ((download_neural_data "ephys" none ⟨["home", "user"], [], []⟩).1
        = PyResult.nameError "fname" ∧
      (download_neural_data "ephys" none ⟨["home", "user"], [], []⟩).2.dirs
        = defaultDestination ⟨["home", "user"], [], []⟩
            :: (⟨["home", "user"], [], []⟩ : FSState).dirs ∧
      (download_neural_data "ephys" none ⟨["home", "user"], [], []⟩).2.files
        = (⟨["home", "user"], [], []⟩ : FSState).files) :=
  ⟨by decide, by decide, by decide,
    c10_unknown_type_creates_dir "ephys" ⟨["home", "user"], [], []⟩
      (by decide) (by decide) (by decide)⟩

lemma foldl_max_zero (l : List ℚ) (h : ∀ x ∈ l, x = 0) :
    l.foldl max 0 = 0 := by
  induction l with
  | nil => rfl
  | cons a t ih =>
      have ha : a = 0 := h a (List.mem_cons_self a t)
      rw [List.foldl_cons, ha, max_self]
      exact ih fun x hx => h x (List.mem_cons_of_mem a hx)

lemma npMax_of_all_zero {H W N : ℕ} (A : Footprints H W N) (n : Fin N)
    (h : ∀ i j, A i j n = 0) : npMax A n = 0 := by
  unfold npMax
  rw [h 0 0]
  refine foldl_max_zero _ fun x hx => ?_
  unfold footprintVals at hx
  rcases List.mem_bind.1 hx with ⟨i, _, hxi⟩
  rcases List.mem_map.1 hxi with ⟨j, _, hxj⟩
  rw [← hxj]
  exact h i j

/-- Claim C7: where a selected footprint has a nonzero maximum the
normalization is a well-defined finite division (the zero-denominator
branch is unreachable), while an entirely zero selected footprint has
maximum zero and every normalized value is NaN, with no exception
raised. -/
theorem c7_normalization_division :
    (∀ (H W N : ℕ) (A : Footprints H W N) (n : Fin N), npMax A n ≠ 0 →
      ∀ i j, normalizedFootprint A n i j = F64.fin (A i j n / npMax A n)) ∧
    (∀ (H W N : ℕ) (A : Footprints H W N) (n : Fin N),
      (∀ i j, A i j n = 0) →
      npMax A n = 0 ∧ ∀ i j, normalizedFootprint A n i j = F64.nan) := by
  constructor
  · intro H W N A n h i j
    unfold normalizedFootprint fdiv
    rw [if_neg h]
  · intro H W N A n h
    have hm := npMax_of_all_zero A n h
    refine ⟨hm, fun i j => ?_⟩
    unfold normalizedFootprint fdiv
    rw [hm, h i j, if_pos rfl, if_pos rfl]

/-- Witness for C7: in `exampleFootprints`, neuron 0 has maximum 1 and is
normalized by a finite division, while neuron 1 is all zero, has maximum 0,
and normalizes to NaN. -/
theorem c7_witness :
    (npMax exampleFootprints 0 ≠ 0 ∧
      normalizedFootprint exampleFootprints 0 0 0
        = F64.fin (exampleFootprints 0 0 0 / npMax exampleFootprints 0)) ∧
    ((∀ i j, exampleFootprints i j 1 = 0) ∧
      npMax exampleFootprints 1 = 0 ∧
      normalizedFootprint exampleFootprints 1 0 0 = F64.nan) :=
  ⟨⟨by decide,
    c7_normalization_division.1 0 0 2 exampleFootprints 0 (by decide) 0 0⟩,
   ⟨fun i j => rfl,
    (c7_normalization_division.2 0 0 2 exampleFootprints 1 fun i j => rfl).1,
    (c7_normalization_division.2 0 0 2 exampleFootprints 1 fun i j => rfl).2 0 0⟩⟩

/-- Claim C3: for selected indices whose footprints have nonzero maxima,
the composite displayed by overlay_neurons equals the 50 percent alpha
blend of the spec-described all-cells image (three identical channels, sum
over the neuron axis scaled by 255) and the spec-described examples image
(the three selected footprints, each divided by its own maximum, as R, G, B
channels scaled by 255). -/
theorem c3_composite_is_half_blend {H W N : ℕ} (A : Footprints H W N)
    (n1 n2 n3 : Fin N) (h1 : npMax A n1 ≠ 0) (h2 : npMax A n2 ≠ 0)
    (h3 : npMax A n3 ≠ 0) (i : Fin (H + 1)) (j : Fin (W + 1)) (k : Fin 3) :
    overlay_composite A n1 n2 n3 i j k
      = blendSpec (allCellsSpec A) (examplesSpec A n1 n2 n3) i j k := by
  unfold overlay_composite blendSpec
  congr 1
  · unfold all_cells allCellsSpec npStack3 npSumAxis2
    fin_cases k <;> rfl
  · unfold examples examplesSpec npStack3 normalizedFootprint fdiv
    fin_cases k <;>
      simp [if_neg h1, if_neg h2, if_neg h3, f64scale, np_uint8F]

/-- Witness for C3 on the concrete collection `wrapFootprints` with
selected indices 0, 1, 0, all of maximum 1. -/
theorem c3_witness :
    (npMax wrapFootprints 0 ≠ 0 ∧ npMax wrapFootprints 1 ≠ 0) ∧
    overlay_composite wrapFootprints 0 1 0 0 0 0
      = blendSpec (allCellsSpec wrapFootprints)
          (examplesSpec wrapFootprints 0 1 0) 0 0 0 :=
  ⟨⟨by decide, by decide⟩,
    c3_composite_is_half_blend wrapFootprints 0 1 0 (by decide) (by decide)
      (by decide) 0 0 0⟩

/-- Claim C9: every channel of the all-cells image is the per-pixel sum
over neurons times 255, truncated and reduced modulo 256 rather than
clipped; on `wrapFootprints` the summed value 2 exceeds 1 and the channel
wraps to 254 where a saturating conversion would give 255. -/
theorem c9_all_cells_wraps_not_clips :
    (∀ (H W N : ℕ) (A : Footprints H W N) (i : Fin (H + 1))
        (j : Fin (W + 1)) (k : Fin 3),
      all_cells A i j k = (ftrunc (npSumAxis2 A i j * 255) % 256).toNat) ∧
    npSumAxis2 wrapFootprints 0 0 = 2 ∧
    all_cells wrapFootprints 0 0 0 = 254 ∧
    np_uint8_clip (npSumAxis2 wrapFootprints 0 0 * 255) = 255 := by
  have hsum : npSumAxis2 wrapFootprints 0 0 = 2 := by
    norm_num [npSumAxis2, wrapFootprints, Fin.sum_univ_two]
  refine ⟨?_, hsum, ?_, ?_⟩
  · intro H W N A i j k
    unfold all_cells npStack3 np_uint8
    fin_cases k <;> rfl
  · show np_uint8 (npStack3 (npSumAxis2 wrapFootprints) (npSumAxis2 wrapFootprints)
      (npSumAxis2 wrapFootprints) 0 0 0 * 255) = 254
    rw [show npStack3 (npSumAxis2 wrapFootprints) (npSumAxis2 wrapFootprints)
        (npSumAxis2 wrapFootprints) 0 0 0 = npSumAxis2 wrapFootprints 0 0 from rfl,
      hsum]
    norm_num [np_uint8, ftrunc]
    decide
  · rw [hsum]
    norm_num [np_uint8_clip]

lemma axesLoop_eq_seqCalls (adder : ℤ → ℤ → ℤ → Except String AxesHandle)
    (nr nc : ℤ) : ∀ (ks : List ℕ) (acc : List AxesHandle),
    axesLoop adder nr nc ks acc
      = (seqCalls adder nr nc ks).map (fun l => acc ++ l) := by
  intro ks
  induction ks with
  | nil => intro acc; simp [axesLoop, seqCalls, Except.map]
  | cons k t ih =>
      intro acc
      unfold axesLoop seqCalls
      cases h : adder nr nc ((k : ℤ) + 1) with
      | error e => simp [Except.map]
      | ok a =>
          cases hs : seqCalls adder nr nc t with
          | error e => simp [ih, hs, Except.map]
          | ok l => simp [ih, hs, Except.map]

lemma create_subplot_axes_with_eq_seqCalls
    (adder : ℤ → ℤ → ℤ → Except String AxesHandle) (nr nc : ℤ) :
    create_subplot_axes_with adder nr nc
      = seqCalls adder nr nc (List.range (nr * nc).toNat) := by
  unfold create_subplot_axes_with
  rw [axesLoop_eq_seqCalls]
  cases seqCalls adder nr nc (List.range (nr * nc).toNat) <;> simp [Except.map]

lemma seqCalls_ok (adder : ℤ → ℤ → ℤ → Except String AxesHandle)
    (nr nc : ℤ) (g : ℕ → AxesHandle) : ∀ ks : List ℕ,
    (∀ k ∈ ks, adder nr nc ((k : ℤ) + 1) = Except.ok (g k)) →
    seqCalls adder nr nc ks = Except.ok (ks.map g) := by
  intro ks
  induction ks with
  | nil => intro _; rfl
  | cons k t ih =>
      intro h
      unfold seqCalls
      rw [h k (List.mem_cons_self k t), ih fun x hx => h x (List.mem_cons_of_mem k hx)]
      rfl

lemma mpl_add_subplot_ok (nr nc : ℤ) (hr : 0 < nr) (hc : 0 < nc) (k : ℕ)
    (hk : (k : ℤ) < nr * nc) :
    mpl_add_subplot nr nc ((k : ℤ) + 1)
      = Except.ok ⟨(k : ℤ) / nc, (k : ℤ) % nc⟩ := by
  have h1 : ¬(nr ≤ 0 ∨ nc ≤ 0) := by push_neg; exact ⟨hr, hc⟩
  have h2 : ¬((k : ℤ) + 1 < 1 ∨ nr * nc < (k : ℤ) + 1) := by
    push_neg
    constructor <;> omega
  unfold mpl_add_subplot
  rw [if_neg h1, if_neg h2]
  norm_num

/-- Claim C4: for positive row and column counts, create_subplot_axes
returns exactly n_rows * n_cols handles in row-major order, the handle at
flat position m sitting in row m / n_cols and column m % n_cols; in
particular (2,3) yields the six handles of row 0 then row 1, and (1,1)
yields one handle. -/
theorem c4_subplot_grid_row_major :
    (∀ nr nc : ℤ, 0 < nr → 0 < nc → ∃ l,
      create_subplot_axes nr nc = Except.ok l ∧
      l.length = (nr * nc).toNat ∧
      ∀ m (hm : m < l.length),
        l.get ⟨m, hm⟩ = ⟨(m : ℤ) / nc, (m : ℤ) % nc⟩) ∧
    create_subplot_axes 2 3
      = Except.ok [⟨0, 0⟩, ⟨0, 1⟩, ⟨0, 2⟩, ⟨1, 0⟩, ⟨1, 1⟩, ⟨1, 2⟩] ∧
    create_subplot_axes 1 1 = Except.ok [⟨0, 0⟩] := by
  refine ⟨?_, by rfl, by rfl⟩
  intro nr nc hr hc
  have hcall : create_subplot_axes nr nc
      = Except.ok ((List.range (nr * nc).toNat).map
          fun (k : ℕ) => (⟨(k : ℤ) / nc, (k : ℤ) % nc⟩ : AxesHandle)) := by
    unfold create_subplot_axes
    rw [create_subplot_axes_with_eq_seqCalls]
    refine seqCalls_ok _ _ _ _ _ fun k hk => ?_
    refine mpl_add_subplot_ok nr nc hr hc k ?_
    have := List.mem_range.1 hk
    omega
  refine ⟨_, hcall, by simp, fun m hm => ?_⟩
  simp only [List.get_eq_getElem, List.getElem_map, List.getElem_range]

/-- Witness for C4 at the concrete grid 2 x 3. -/
theorem c4_witness :
    ((0 : ℤ) < 2 ∧ (0 : ℤ) < 3) ∧
    (∃ l, create_subplot_axes 2 3 = Except.ok l ∧
      l.length = ((2 * 3 : ℤ)).toNat ∧
      ∀ m (hm : m < l.length),
        l.get ⟨m, hm⟩ = ⟨(m : ℤ) / 3, (m : ℤ) % 3⟩) ∧
    create_subplot_axes 2 3
      = Except.ok [⟨0, 0⟩, ⟨0, 1⟩, ⟨0, 2⟩, ⟨1, 0⟩, ⟨1, 1⟩, ⟨1, 2⟩] :=
  ⟨⟨by decide, by decide⟩,
    c4_subplot_grid_row_major.1 2 3 (by decide) (by decide),
    c4_subplot_grid_row_major.2.1⟩

/-- Claim C8: create_subplot_axes adds no error handling of its own for
non-positive counts: the outcome is exactly the sequence of raw
subplot-creation calls of the plotting library with the counts passed
through unchanged; with the matplotlib model this is an empty handle list
when n_rows * n_cols is non-positive (the loop body never runs) and the
ValueError of the library otherwise. -/
theorem c8_nonpositive_counts_delegated
    (adder : ℤ → ℤ → ℤ → Except String AxesHandle) (nr nc : ℤ)
    (h : nr ≤ 0 ∨ nc ≤ 0) :
    create_subplot_axes_with adder nr nc
      = seqCalls adder nr nc (List.range (nr * nc).toNat) ∧
    create_subplot_axes nr nc
      = (if (nr * nc).toNat = 0 then Except.ok []
         else Except.error
           "ValueError: number of rows and columns must be positive") := by
  refine ⟨create_subplot_axes_with_eq_seqCalls adder nr nc, ?_⟩
  unfold create_subplot_axes
  rw [create_subplot_axes_with_eq_seqCalls]
  cases hn : (nr * nc).toNat with
  | zero => rfl
  | succ m =>
      rw [List.range_succ_eq_map]
      unfold seqCalls
      rw [show mpl_add_subplot nr nc ((0 : ℕ) + 1) = Except.error
          "ValueError: number of rows and columns must be positive" by
        unfold mpl_add_subplot
        rw [if_pos h]]
      simp

/-- Witness for C8 at the concrete counts 0 and 2. -/
theorem c8_witness :
    ((0 : ℤ) ≤ 0 ∨ (2 : ℤ) ≤ 0) ∧
    (create_subplot_axes_with mpl_add_subplot 0 2
        = seqCalls mpl_add_subplot 0 2 (List.range ((0 * 2 : ℤ)).toNat) ∧
      create_subplot_axes 0 2
        = (if ((0 * 2 : ℤ)).toNat = 0 then Except.ok []
           else Except.error
             "ValueError: number of rows and columns must be positive")) :=
  ⟨Or.inl le_rfl,
    c8_nonpositive_counts_delegated mpl_add_subplot 0 2 (Or.inl le_rfl)⟩
